import Mathlib

/-!
Shallow embedding of the `UniversalProvider` usage-detection engine.

The provider holds an API key and an endpoint (the endpoint is stripped of
one trailing slash at construction time).  `fetchUsage` probes three backend
formats in the fixed order NewAPI, OneAPI, OpenRouter and returns the first
non-null, error-free probe result, or a sentinel record.

Network interaction is modelled by a `World` value: the parsed JSON body
(or transport error) that each of the six possible HTTP requests of one
invocation would produce.  Optional / missing JSON fields are `Option` and
the JavaScript `x || 0` default is `Option.getD 0`; monetary amounts are
rationals so that the unit conversions (cents / 100, quota / 500000) are
exact.  Alongside each probe we define the list of requests it issues,
mirroring the source's control flow, so that claims about "no network
request is made" are statable.
-/

namespace Lookcc

/-- The canonical usage record (`UsageResult` in the source).  The spec calls
the `type` field `backendType`. -/
structure UsageResult where
  todayUsed : ℚ
  monthUsed : ℚ
  totalUsed : ℚ
  total : ℚ
  remaining : ℚ
  type : String
  error : Option String
deriving DecidableEq, Repr

/-- Parsed body of the Format A subscription response: the optional
`hard_limit_usd` number and whether a truthy `error` field is present
(the source checks `subResponse.data.error`). -/
structure SubData where
  hard_limit_usd : Option ℚ
  error : Bool
deriving DecidableEq, Repr

/-- Parsed body of one Format A usage response (`total_usage`, in cents). -/
structure UsageWindow where
  total_usage : Option ℚ
deriving DecidableEq, Repr

/-- The nested `data` object of the Format B `/api/user/self` response. -/
structure OneData where
  quota : Option ℚ
  used_quota : Option ℚ
deriving DecidableEq, Repr

/-- The nested `data` object of the OpenRouter `auth/key` response. -/
structure ORData where
  usage : Option ℚ
  limit : Option ℚ
deriving DecidableEq, Repr

/-- Responses the network would give to the six requests a single
`fetchUsage` invocation can issue.  `Except.error` is a transport failure
(rejected promise); `Except.ok none` is a 2xx response whose relevant
body / nested object is absent or falsy. -/
structure World where
  sub : Except Unit (Option SubData)
  usageToday : Except Unit (Option UsageWindow)
  usageMonth : Except Unit (Option UsageWindow)
  usageYear : Except Unit (Option UsageWindow)
  userSelf : Except Unit (Option OneData)
  authKey : Except Unit (Option ORData)

/-- The HTTP requests an invocation can issue.  `authKey` is the fixed URL
`https://openrouter.ai/api/v1/auth/key`; the others are relative to the
configured endpoint. -/
inductive Request where
  | subscription (endpoint : String)
  | usageToday (endpoint : String)
  | usageMonth (endpoint : String)
  | usageYear (endpoint : String)
  | userSelf (endpoint : String)
  | authKey
deriving DecidableEq, Repr

/-- Does `pat` occur in the character list (JavaScript `String.includes`)? -/
def includesAux (pat : List Char) : List Char → Bool
  | [] => pat.isEmpty
  | c :: t => pat.isPrefixOf (c :: t) || includesAux pat t

/-- JavaScript `s.includes(pat)`. -/
def strIncludes (s pat : String) : Bool :=
  includesAux pat.data s.data

/-- Drop a leading slash of a reversed character list. -/
def dropSlashRev : List Char → List Char
  | [] => []
  | c :: t => if c = '/' then t else c :: t

/-- JavaScript `endpoint.replace(/\/$/, '')`: remove one trailing slash. -/
def stripTrailingSlash (s : String) : String :=
  ⟨(dropSlashRev s.data.reverse).reverse⟩

/-- The provider state after construction. -/
structure UniversalProvider where
  apiKey : String
  endpoint : String
deriving DecidableEq, Repr

/-- The constructor: stores the key and the endpoint stripped of one
trailing slash. -/
def UniversalProvider.make (apiKey endpoint : String) : UniversalProvider :=
  { apiKey := apiKey, endpoint := stripTrailingSlash endpoint }

/-- Format A probe (`tryNewAPIBilling`).  Fetches the subscription, bails
out to `null` if its body is missing or carries an `error` field, then
fetches today / month-to-date / year-to-date usage concurrently; any
rejection makes the whole probe `null`.  `total_usage` is cents. -/
def tryNewAPIBilling (w : World) : Option UsageResult :=
  match w.sub with
  | Except.error _ => none
  | Except.ok none => none
  | Except.ok (some sd) =>
    if sd.error then none
    else
      match w.usageToday, w.usageMonth, w.usageYear with
      | Except.ok t, Except.ok m, Except.ok y =>
        let hardLimitUsd := sd.hard_limit_usd.getD 0
        let todayUsed := (Option.getD (Option.bind t UsageWindow.total_usage) 0) / 100
        let monthUsed := (Option.getD (Option.bind m UsageWindow.total_usage) 0) / 100
        let totalUsed := (Option.getD (Option.bind y UsageWindow.total_usage) 0) / 100
        let isUnlimited := decide ((1000000 : ℚ) ≤ hardLimitUsd)
        some { todayUsed := todayUsed
               monthUsed := monthUsed
               totalUsed := totalUsed
               total := if isUnlimited then 0 else hardLimitUsd
               remaining := if isUnlimited then 0 else hardLimitUsd - totalUsed
               type := "NewAPI"
               error := none }
      | _, _, _ => none

/-- Requests Format A issues: always the subscription call; the three usage
calls only when the subscription body is present and error-free. -/
def newAPIRequests (endpoint : String) (w : World) : List Request :=
  Request.subscription endpoint ::
    match w.sub with
    | Except.ok (some sd) =>
      if sd.error then []
      else [Request.usageToday endpoint, Request.usageMonth endpoint,
            Request.usageYear endpoint]
    | _ => []

/-- Format B probe (`tryOneAPI`).  One call to `/api/user/self`; a missing
nested `data` object yields `null`; `quota` and `used_quota` are in units
of 1/500000 dollar and default to 0 when absent. -/
def tryOneAPI (w : World) : Option UsageResult :=
  match w.userSelf with
  | Except.error _ => none
  | Except.ok none => none
  | Except.ok (some d) =>
    let quota := (Option.getD d.quota 0) / 500000
    let usedQuota := (Option.getD d.used_quota 0) / 500000
    some { todayUsed := 0
           monthUsed := 0
           totalUsed := usedQuota
           total := quota + usedQuota
           remaining := quota
           type := "OneAPI"
           error := none }

/-- Requests Format B issues. -/
def oneAPIRequests (endpoint : String) : List Request :=
  [Request.userSelf endpoint]

/-- Format C probe (`tryOpenRouter`).  Short-circuits to `null` without any
request unless the endpoint contains `openrouter.ai`; otherwise one call to
the fixed `auth/key` URL.  `limit` 0 means unlimited: `remaining` is 0. -/
def tryOpenRouter (endpoint : String) (w : World) : Option UsageResult :=
  if ¬ strIncludes endpoint "openrouter.ai" then none
  else
    match w.authKey with
    | Except.error _ => none
    | Except.ok none => none
    | Except.ok (some d) =>
      let usage := Option.getD d.usage 0
      let limit := Option.getD d.limit 0
      some { todayUsed := 0
             monthUsed := 0
             totalUsed := usage
             total := limit
             remaining := if 0 < limit then limit - usage else 0
             type := "OpenRouter"
             error := none }

/-- Requests Format C issues. -/
def openRouterRequests (endpoint : String) : List Request :=
  if strIncludes endpoint "openrouter.ai" then [Request.authKey] else []

/-- The loop guard `result && !result.error` of the orchestrator. -/
def probeGood : Option UsageResult → Bool
  | some r => r.error.isNone
  | none => false

/-- First probe result that is non-null and error-free. -/
def firstGood : List (Option UsageResult) → Option UsageResult
  | [] => none
  | o :: rest => if probeGood o then o else firstGood rest

/-- Sentinel returned when the key or endpoint is empty. -/
def configSentinel : UsageResult :=
  { todayUsed := 0, monthUsed := 0, totalUsed := 0, total := 0,
    remaining := 0, type := "unknown",
    error := some "API Key or Endpoint not configured" }

/-- Sentinel returned when every probe fails. -/
def unknownSentinel : UsageResult :=
  { todayUsed := 0, monthUsed := 0, totalUsed := 0, total := 0,
    remaining := 0, type := "unknown",
    error := some "Unable to detect API type" }

/-- `fetchUsage`: empty key or endpoint short-circuits to the config
sentinel; otherwise the probes run in the fixed order Format A, Format B,
Format C and the first non-null error-free result is returned, the unknown
sentinel if none is. -/
def UniversalProvider.fetchUsage (p : UniversalProvider) (w : World) :
    UsageResult :=
  if p.apiKey = "" ∨ p.endpoint = "" then configSentinel
  else
    match firstGood [tryNewAPIBilling w, tryOneAPI w,
                     tryOpenRouter p.endpoint w] with
    | some r => r
    | none => unknownSentinel

/-- The requests one `fetchUsage` invocation issues, mirroring its control
flow: none at all on the config short-circuit, and each later probe's
requests only when every earlier probe failed. -/
def UniversalProvider.fetchRequests (p : UniversalProvider) (w : World) :
    List Request :=
  if p.apiKey = "" ∨ p.endpoint = "" then []
  else
    newAPIRequests p.endpoint w ++
      if probeGood (tryNewAPIBilling w) then []
      else oneAPIRequests p.endpoint ++
        if probeGood (tryOneAPI w) then []
        else openRouterRequests p.endpoint

/-! ### Example worlds used to exercise the model at concrete inputs -/

/-- The spec's Format A scenario: subscription limit 50 dollars, usage
250 / 4000 / 4500 cents for today / month / year. -/
def wSpecA : World :=
  { sub := Except.ok (some ⟨some 50, false⟩)
    usageToday := Except.ok (some ⟨some 250⟩)
    usageMonth := Except.ok (some ⟨some 4000⟩)
    usageYear := Except.ok (some ⟨some 4500⟩)
    userSelf := Except.error ()
    authKey := Except.error () }

/-- The spec's Format B scenario: the subscription call 404s and
`/api/user/self` reports quota 2500000 and used quota 500000. -/
def wSpecB : World :=
  { sub := Except.error ()
    usageToday := Except.error ()
    usageMonth := Except.error ()
    usageYear := Except.error ()
    userSelf := Except.ok (some ⟨some 2500000, some 500000⟩)
    authKey := Except.error () }

/-- Every request fails at transport level. -/
def wFail : World :=
  { sub := Except.error ()
    usageToday := Except.error ()
    usageMonth := Except.error ()
    usageYear := Except.error ()
    userSelf := Except.error ()
    authKey := Except.error () }

/-- Format A backend with an absent `hard_limit_usd` and 100 cents of
year-to-date usage. -/
def wZeroLimit : World :=
  { sub := Except.ok (some ⟨none, false⟩)
    usageToday := Except.ok none
    usageMonth := Except.ok none
    usageYear := Except.ok (some ⟨some 100⟩)
    userSelf := Except.error ()
    authKey := Except.error () }

/-- Format B backend whose `data` object lacks the `quota` field. -/
def wNoQuota : World :=
  { sub := Except.error ()
    usageToday := Except.error ()
    usageMonth := Except.error ()
    usageYear := Except.error ()
    userSelf := Except.ok (some ⟨none, some 500000⟩)
    authKey := Except.error () }

/-- Format A subscription succeeds but the today usage call rejects. -/
def wPartialA : World :=
  { sub := Except.ok (some ⟨some 50, false⟩)
    usageToday := Except.error ()
    usageMonth := Except.ok (some ⟨some 1⟩)
    usageYear := Except.ok (some ⟨some 2⟩)
    userSelf := Except.error ()
    authKey := Except.error () }

/-! ### Basic lemmas -/

theorem stripTrailingSlash_empty : stripTrailingSlash "" = "" := rfl

theorem stripTrailingSlash_append_slash (e : String) :
    stripTrailingSlash (e ++ "/") = e := by
  cases e with
  | mk data =>
    simp [stripTrailingSlash, String.instAppend, String.append, dropSlashRev]

theorem stripTrailingSlash_of_not_slash (e : String)
    (h : e.data.getLast? ≠ some '/') : stripTrailingSlash e = e := by
  cases e with
  | mk data =>
    cases hrev : data.reverse with
    | nil =>
      have : data = [] := by simpa using congrArg List.reverse hrev
      simp [stripTrailingSlash, this, dropSlashRev]
    | cons c t =>
      have hlast : data.getLast? = some c := by
        rw [← List.head?_reverse, hrev]; rfl
      have hc : ¬ c = '/' := by
        intro hc; exact h (hc ▸ hlast)
      have hdata : (c :: t).reverse = data := by
        simpa using (congrArg List.reverse hrev).symm
      simp [stripTrailingSlash, hrev, dropSlashRev, hc, hdata]

theorem probeGood_none : probeGood none = false := rfl

theorem probeGood_some (r : UsageResult) :
    probeGood (some r) = r.error.isNone := rfl

theorem probeGood_eq_true {o : Option UsageResult} (h : probeGood o = true) :
    ∃ r, o = some r ∧ r.error = none := by
  cases o with
  | none => simp [probeGood] at h
  | some r =>
    refine ⟨r, rfl, ?_⟩
    simpa [probeGood, Option.isNone_iff_eq_none] using h

theorem firstGood_cons (o : Option UsageResult) (l : List (Option UsageResult)) :
    firstGood (o :: l) = if probeGood o then o else firstGood l := rfl

/-- Every `fetchUsage` output is one of the two sentinels or the exact
output of one probe. -/
theorem fetchUsage_cases (p : UniversalProvider) (w : World) :
    p.fetchUsage w = configSentinel ∨ p.fetchUsage w = unknownSentinel ∨
    tryNewAPIBilling w = some (p.fetchUsage w) ∨
    tryOneAPI w = some (p.fetchUsage w) ∨
    tryOpenRouter p.endpoint w = some (p.fetchUsage w) := by
  unfold UniversalProvider.fetchUsage
  split
  · exact Or.inl rfl
  · by_cases g1 : probeGood (tryNewAPIBilling w)
    · obtain ⟨r, hr, -⟩ := probeGood_eq_true g1
      rw [firstGood_cons, if_pos g1, hr]
      exact Or.inr (Or.inr (Or.inl rfl))
    · by_cases g2 : probeGood (tryOneAPI w)
      · obtain ⟨r, hr, -⟩ := probeGood_eq_true g2
        rw [firstGood_cons, if_neg g1, firstGood_cons, if_pos g2, hr]
        exact Or.inr (Or.inr (Or.inr (Or.inl rfl)))
      · by_cases g3 : probeGood (tryOpenRouter p.endpoint w)
        · obtain ⟨r, hr, -⟩ := probeGood_eq_true g3
          rw [firstGood_cons, if_neg g1, firstGood_cons, if_neg g2,
            firstGood_cons, if_pos g3, hr]
          exact Or.inr (Or.inr (Or.inr (Or.inr rfl)))
        · rw [firstGood_cons, if_neg g1, firstGood_cons, if_neg g2,
            firstGood_cons, if_neg g3]
          exact Or.inr (Or.inl rfl)

/-! ### Claim theorems -/

/-- Claim C2: whenever the apiKey or the endpoint is the empty string,
`fetchUsage` returns, issuing no network request, the record with all
numeric fields 0, backend type `unknown` and the configured-missing
error. -/
theorem fetchUsage_config_missing (apiKey endpoint : String) (w : World)
    (h : apiKey = "" ∨ endpoint = "") :
    (UniversalProvider.make apiKey endpoint).fetchUsage w =
      ⟨0, 0, 0, 0, 0, "unknown", some "API Key or Endpoint not configured"⟩ ∧
    (UniversalProvider.make apiKey endpoint).fetchRequests w = [] := by
  have hguard : (UniversalProvider.make apiKey endpoint).apiKey = "" ∨
      (UniversalProvider.make apiKey endpoint).endpoint = "" := by
    rcases h with h | h
    · exact Or.inl h
    · exact Or.inr (by simp [UniversalProvider.make, h, stripTrailingSlash_empty])
  constructor
  · simp [UniversalProvider.fetchUsage, hguard, configSentinel]
  · simp [UniversalProvider.fetchRequests, hguard]

/-- Witness for C2 at the concrete input (empty key, nonempty endpoint). -/
theorem fetchUsage_config_missing_witness :
    (UniversalProvider.make "" "https://x.example").fetchUsage wFail =
      ⟨0, 0, 0, 0, 0, "unknown", some "API Key or Endpoint not configured"⟩ ∧
    (UniversalProvider.make "" "https://x.example").fetchRequests wFail = [] :=
  fetchUsage_config_missing "" "https://x.example" wFail (Or.inl rfl)

/-- Claim C3: a successful Format A run with subscription limit `H` dollars
and `t` / `m` / `y` cents of usage yields `t/100`, `m/100`, `y/100` dollars;
a limit of at least a million dollars is reported as `total = 0` and
`remaining = 0`, otherwise `total = H` and `remaining = H - y/100`. -/
theorem tryNewAPIBilling_valid (w : World) (H t m y : ℚ)
    (hs : w.sub = Except.ok (some ⟨some H, false⟩))
    (ht : w.usageToday = Except.ok (some ⟨some t⟩))
    (hm : w.usageMonth = Except.ok (some ⟨some m⟩))
    (hy : w.usageYear = Except.ok (some ⟨some y⟩)) :
    tryNewAPIBilling w =
      some ⟨t / 100, m / 100, y / 100,
        if 1000000 ≤ H then 0 else H,
        if 1000000 ≤ H then 0 else H - y / 100,
        "NewAPI", none⟩ := by
  by_cases hH : (1000000 : ℚ) ≤ H <;>
    simp [tryNewAPIBilling, hs, ht, hm, hy, hH]

/-- Witness for C3: the spec's Format A scenario evaluates to the spec's
expected record. -/
theorem tryNewAPIBilling_valid_witness :
    tryNewAPIBilling wSpecA = some ⟨5/2, 40, 45, 50, 5, "NewAPI", none⟩ := by
  have h := tryNewAPIBilling_valid wSpecA 50 250 4000 4500 rfl rfl rfl rfl
  rw [h]
  norm_num

/-- Claim C4: a successful Format B run with quota `q` and used quota `u`
yields `totalUsed = u/500000`, `remaining = q/500000`, the derived
`total = q/500000 + u/500000`, zero daily and monthly figures and backend
type `OneAPI`. -/
theorem tryOneAPI_valid (w : World) (q u : ℚ)
    (h : w.userSelf = Except.ok (some ⟨some q, some u⟩)) :
    tryOneAPI w =
      some ⟨0, 0, u / 500000, q / 500000 + u / 500000, q / 500000,
        "OneAPI", none⟩ := by
  simp [tryOneAPI, h]

/-- Witness for C4: the spec's Format B scenario evaluates to the spec's
expected record. -/
theorem tryOneAPI_valid_witness :
    tryOneAPI wSpecB = some ⟨0, 0, 1, 6, 5, "OneAPI", none⟩ := by
  have h := tryOneAPI_valid wSpecB 2500000 500000 rfl
  rw [h]
  norm_num

/-- Claim C6: when the Format A subscription call succeeds (body present,
no error field) but at least one of the three usage calls fails, the whole
Format A probe yields null and the orchestrator goes on to issue Format B's
request. -/
theorem tryNewAPIBilling_partial_failure (p : UniversalProvider) (w : World)
    (sd : SubData) (hs : w.sub = Except.ok (some sd)) (hse : sd.error = false)
    (hfail : w.usageToday = Except.error () ∨ w.usageMonth = Except.error () ∨
      w.usageYear = Except.error ())
    (hk : p.apiKey ≠ "") (he : p.endpoint ≠ "") :
    tryNewAPIBilling w = none ∧
    Request.userSelf p.endpoint ∈ p.fetchRequests w := by
  have h1 : tryNewAPIBilling w = none := by
    rcases hfail with hf | hf | hf <;>
      rcases ht : w.usageToday with _ | t <;>
      rcases hm2 : w.usageMonth with _ | m <;>
      rcases hy : w.usageYear with _ | y <;>
      simp_all [tryNewAPIBilling]
  have hguard : ¬ (p.apiKey = "" ∨ p.endpoint = "") := by simp [hk, he]
  refine ⟨h1, ?_⟩
  simp [UniversalProvider.fetchRequests, hguard, h1, probeGood, oneAPIRequests]

/-- Witness for C6: subscription limit 50 but a rejected today-usage call. -/
theorem tryNewAPIBilling_partial_failure_witness :
    tryNewAPIBilling wPartialA = none ∧
    Request.userSelf (UniversalProvider.make "k" "https://x.example").endpoint ∈
      (UniversalProvider.make "k" "https://x.example").fetchRequests wPartialA :=
  tryNewAPIBilling_partial_failure (UniversalProvider.make "k" "https://x.example")
    wPartialA ⟨some 50, false⟩ rfl rfl (Or.inl rfl) (by decide) (by decide)

/-- Claim C7: the Format C probe issues no request and returns null when the
endpoint does not contain `openrouter.ai`, and issues exactly the one
request to the fixed auth-key URL when it does. -/
theorem tryOpenRouter_gating (endpoint : String) (w : World) :
    (strIncludes endpoint "openrouter.ai" = false →
      tryOpenRouter endpoint w = none ∧ openRouterRequests endpoint = []) ∧
    (strIncludes endpoint "openrouter.ai" = true →
      openRouterRequests endpoint = [Request.authKey]) := by
  refine ⟨fun h => ⟨?_, ?_⟩, fun h => ?_⟩
  · simp [tryOpenRouter, h]
  · simp [openRouterRequests, h]
  · simp [openRouterRequests, h]

/-- Witness for C7: a non-OpenRouter endpoint issues nothing; an OpenRouter
endpoint issues the single fixed request. -/
theorem tryOpenRouter_gating_witness :
    (tryOpenRouter "https://api.example.com" wFail = none ∧
      openRouterRequests "https://api.example.com" = []) ∧
    openRouterRequests "https://openrouter.ai/api/v1" = [Request.authKey] :=
  ⟨(tryOpenRouter_gating "https://api.example.com" wFail).1 (by decide),
   (tryOpenRouter_gating "https://openrouter.ai/api/v1" wFail).2 (by decide)⟩

/-- Claim C8: with nonempty credentials, if all three probes yield null then
`fetchUsage` returns exactly the unknown sentinel record (and, being a total
function, throws nothing). -/
theorem fetchUsage_all_probes_fail (p : UniversalProvider) (w : World)
    (hk : p.apiKey ≠ "") (he : p.endpoint ≠ "")
    (h1 : tryNewAPIBilling w = none) (h2 : tryOneAPI w = none)
    (h3 : tryOpenRouter p.endpoint w = none) :
    p.fetchUsage w =
      ⟨0, 0, 0, 0, 0, "unknown", some "Unable to detect API type"⟩ := by
  have hguard : ¬ (p.apiKey = "" ∨ p.endpoint = "") := by simp [hk, he]
  simp [UniversalProvider.fetchUsage, hguard, firstGood_cons, probeGood,
    h1, h2, h3, firstGood, unknownSentinel]

/-- Witness for C8: every request fails at transport level. -/
theorem fetchUsage_all_probes_fail_witness :
    (UniversalProvider.make "k" "https://x.example").fetchUsage wFail =
      ⟨0, 0, 0, 0, 0, "unknown", some "Unable to detect API type"⟩ :=
  fetchUsage_all_probes_fail (UniversalProvider.make "k" "https://x.example")
    wFail (by decide) (by decide) rfl rfl (by decide)

/-- Claim C9: a Format B response whose `data` object is present still
succeeds as a `OneAPI` record when `quota` or `used_quota` is absent, the
absent field contributing 0; only an absent `data` object (or a transport
error, under which the match yields null) disqualifies the probe. -/
theorem tryOneAPI_missing_fields (w : World) (d : OneData)
    (h : w.userSelf = Except.ok (some d))
    (_hm : d.quota = none ∨ d.used_quota = none) :
    tryOneAPI w =
      some ⟨0, 0, (Option.getD d.used_quota 0) / 500000,
        (Option.getD d.quota 0) / 500000 + (Option.getD d.used_quota 0) / 500000,
        (Option.getD d.quota 0) / 500000, "OneAPI", none⟩ ∧
    (∀ w2 : World, w2.userSelf = Except.ok none → tryOneAPI w2 = none) := by
  refine ⟨by simp [tryOneAPI, h], fun w2 h2 => by simp [tryOneAPI, h2]⟩

/-- Witness for C9: `data` present with `quota` absent and
`used_quota = 500000` still yields a OneAPI record. -/
theorem tryOneAPI_missing_fields_witness :
    tryOneAPI wNoQuota = some ⟨0, 0, 1, 1, 0, "OneAPI", none⟩ := by
  have h := (tryOneAPI_missing_fields wNoQuota ⟨none, some 500000⟩ rfl
    (Or.inl rfl)).1
  rw [h]
  norm_num

/-- Claim C1: with nonempty credentials the probes run in the fixed order
Format A, Format B, Format C; the first non-null error-free result is
returned verbatim (later probes issue no requests), and if no probe
qualifies the unknown sentinel is returned. -/
theorem fetchUsage_first_match_wins (p : UniversalProvider) (w : World)
    (hk : p.apiKey ≠ "") (he : p.endpoint ≠ "") :
    (∀ v, tryNewAPIBilling w = some v → v.error = none →
      p.fetchUsage w = v ∧
      p.fetchRequests w = newAPIRequests p.endpoint w) ∧
    (probeGood (tryNewAPIBilling w) = false →
      ∀ v, tryOneAPI w = some v → v.error = none →
      p.fetchUsage w = v ∧
      p.fetchRequests w =
        newAPIRequests p.endpoint w ++ oneAPIRequests p.endpoint) ∧
    (probeGood (tryNewAPIBilling w) = false → probeGood (tryOneAPI w) = false →
      ∀ v, tryOpenRouter p.endpoint w = some v → v.error = none →
      p.fetchUsage w = v) ∧
    (probeGood (tryNewAPIBilling w) = false → probeGood (tryOneAPI w) = false →
      probeGood (tryOpenRouter p.endpoint w) = false →
      p.fetchUsage w =
        ⟨0, 0, 0, 0, 0, "unknown", some "Unable to detect API type"⟩) := by
  have hguard : ¬ (p.apiKey = "" ∨ p.endpoint = "") := by simp [hk, he]
  refine ⟨fun v hv herr => ⟨?_, ?_⟩, fun g1 v hv herr => ⟨?_, ?_⟩,
    fun g1 g2 v hv herr => ?_, fun g1 g2 g3 => ?_⟩
  · simp [UniversalProvider.fetchUsage, hguard, firstGood_cons, hv,
      probeGood_some, herr]
  · have g : probeGood (tryNewAPIBilling w) = true := by
      simp [hv, probeGood_some, herr]
    simp [UniversalProvider.fetchRequests, hguard, g]
  · simp [UniversalProvider.fetchUsage, hguard, firstGood_cons, g1, hv,
      probeGood_some, herr]
  · have g : probeGood (tryOneAPI w) = true := by
      simp [hv, probeGood_some, herr]
    simp [UniversalProvider.fetchRequests, hguard, g1, g]
  · simp [UniversalProvider.fetchUsage, hguard, firstGood_cons, g1, g2, hv,
      probeGood_some, herr]
  · simp [UniversalProvider.fetchUsage, hguard, firstGood_cons, firstGood,
      g1, g2, g3, unknownSentinel]

/-- Witness for C1: Format A succeeds in the spec scenario, so its record
is returned and only Format A's requests are issued. -/
theorem fetchUsage_first_match_wins_witness :
    (UniversalProvider.make "k" "https://api.example.com").fetchUsage wSpecA =
      ⟨5/2, 40, 45, 50, 5, "NewAPI", none⟩ ∧
    (UniversalProvider.make "k" "https://api.example.com").fetchRequests wSpecA =
      newAPIRequests
        (UniversalProvider.make "k" "https://api.example.com").endpoint wSpecA := by
  have hA : tryNewAPIBilling wSpecA = some ⟨5/2, 40, 45, 50, 5, "NewAPI", none⟩ := by
    norm_num [tryNewAPIBilling, wSpecA]
  exact (fetchUsage_first_match_wins
    (UniversalProvider.make "k" "https://api.example.com") wSpecA
    (by decide) (by decide)).1 _ hA rfl

/-- Claim C10: the constructor strips exactly one trailing slash, so
appending a slash to an endpoint that does not end in one changes nothing,
and the endpoint consisting of a single slash is treated as unconfigured. -/
theorem make_trailing_slash_invariance (k e : String) (w : World)
    (h : e.data.getLast? ≠ some '/') :
    UniversalProvider.make k (e ++ "/") = UniversalProvider.make k e ∧
    (UniversalProvider.make k (e ++ "/")).fetchUsage w =
      (UniversalProvider.make k e).fetchUsage w ∧
    (∀ k2 : String, ∀ w2 : World,
      (UniversalProvider.make k2 "/").fetchUsage w2 =
        ⟨0, 0, 0, 0, 0, "unknown", some "API Key or Endpoint not configured"⟩) := by
  have hmk : UniversalProvider.make k (e ++ "/") = UniversalProvider.make k e := by
    simp [UniversalProvider.make, stripTrailingSlash_append_slash,
      stripTrailingSlash_of_not_slash e h]
  refine ⟨hmk, by rw [hmk], fun k2 w2 => ?_⟩
  have hm2 : UniversalProvider.make k2 "/" = ⟨k2, ""⟩ := by
    simp [UniversalProvider.make]
    rfl
  rw [hm2]
  simp [UniversalProvider.fetchUsage, configSentinel]

/-- Witness for C10 at a concrete endpoint not ending in a slash. -/
theorem make_trailing_slash_invariance_witness :
    UniversalProvider.make "k" ("https://x.example" ++ "/") =
      UniversalProvider.make "k" "https://x.example" ∧
    (UniversalProvider.make "kk" "/").fetchUsage wFail =
      ⟨0, 0, 0, 0, 0, "unknown", some "API Key or Endpoint not configured"⟩ :=
  ⟨(make_trailing_slash_invariance "k" "https://x.example" wFail (by decide)).1,
   (make_trailing_slash_invariance "k" "https://x.example" wFail
      (by decide)).2.2 "kk" wFail⟩

/-! ### Shape of `remaining` in each probe's output -/

theorem tryNewAPIBilling_shape {w : World} {r : UsageResult}
    (h : tryNewAPIBilling w = some r) :
    r.remaining = r.total - r.totalUsed ∨ r.remaining = 0 := by
  unfold tryNewAPIBilling at h
  split at h
  · exact absurd h (by simp)
  · exact absurd h (by simp)
  · rename_i sd hsd
    split at h
    · exact absurd h (by simp)
    · split at h
      · rw [Option.some_inj] at h
        subst h
        by_cases hU : (1000000 : ℚ) ≤ Option.getD sd.hard_limit_usd 0
        · exact Or.inr (by simp [hU])
        · exact Or.inl (by simp [hU])
      · exact absurd h (by simp)

theorem tryOneAPI_shape {w : World} {r : UsageResult}
    (h : tryOneAPI w = some r) :
    r.remaining = r.total - r.totalUsed := by
  unfold tryOneAPI at h
  split at h
  · exact absurd h (by simp)
  · exact absurd h (by simp)
  · rw [Option.some_inj] at h
    subst h
    simp

theorem tryOpenRouter_shape {e : String} {w : World} {r : UsageResult}
    (h : tryOpenRouter e w = some r) :
    r.remaining = r.total - r.totalUsed ∨ r.remaining = 0 := by
  unfold tryOpenRouter at h
  split at h
  · exact absurd h (by simp)
  · split at h
    · exact absurd h (by simp)
    · exact absurd h (by simp)
    · rename_i d hd
      rw [Option.some_inj] at h
      subst h
      by_cases hl : 0 < Option.getD d.limit 0
      · exact Or.inl (by simp [hl])
      · exact Or.inr (by simp [hl])

/-- Counterexample to claim C5 as stated: with an absent `hard_limit_usd`
and 100 cents of year-to-date usage, Format A returns an error-free record
with `total = 0` but `remaining = -1`, not 0. -/
theorem fetchUsage_remaining_counterexample :
    ((UniversalProvider.make "key" "https://x.example").fetchUsage wZeroLimit).error
        = none ∧
    ((UniversalProvider.make "key" "https://x.example").fetchUsage wZeroLimit).total
        = 0 ∧
    ((UniversalProvider.make "key" "https://x.example").fetchUsage wZeroLimit).remaining
        ≠ 0 := by
  have hA : tryNewAPIBilling wZeroLimit = some ⟨0, 0, 1, 0, -1, "NewAPI", none⟩ := by
    norm_num [tryNewAPIBilling, wZeroLimit]
  have hguard : ¬ ((UniversalProvider.make "key" "https://x.example").apiKey = "" ∨
      (UniversalProvider.make "key" "https://x.example").endpoint = "") := by
    decide
  have hf : (UniversalProvider.make "key" "https://x.example").fetchUsage wZeroLimit =
      ⟨0, 0, 1, 0, -1, "NewAPI", none⟩ := by
    simp [UniversalProvider.fetchUsage, hguard, firstGood_cons, probeGood_some, hA]
  rw [hf]
  norm_num

/-- Claim C5 (amended): every error-free `fetchUsage` record satisfies
`remaining = total - totalUsed` or `remaining = 0`; the original claim's
second conjunct fails — a Format A record with `hard_limit_usd` 0 or absent
and nonzero usage has `total = 0` yet `remaining = -totalUsed`. -/
theorem fetchUsage_remaining_sub_or_zero (p : UniversalProvider) (w : World)
    (h : (p.fetchUsage w).error = none) :
    (p.fetchUsage w).remaining =
      (p.fetchUsage w).total - (p.fetchUsage w).totalUsed ∨
    (p.fetchUsage w).remaining = 0 := by
  rcases fetchUsage_cases p w with hc | hc | hc | hc | hc
  · rw [hc] at h
    simp [configSentinel] at h
  · rw [hc] at h
    simp [unknownSentinel] at h
  · exact tryNewAPIBilling_shape hc
  · exact Or.inl (tryOneAPI_shape hc)
  · exact tryOpenRouter_shape hc

/-- Witness for the amended C5 at the spec's Format A scenario. -/
theorem fetchUsage_remaining_sub_or_zero_witness :
    ((UniversalProvider.make "k" "https://api.example.com").fetchUsage wSpecA).remaining =
      ((UniversalProvider.make "k" "https://api.example.com").fetchUsage wSpecA).total -
      ((UniversalProvider.make "k" "https://api.example.com").fetchUsage wSpecA).totalUsed ∨
    ((UniversalProvider.make "k" "https://api.example.com").fetchUsage wSpecA).remaining
        = 0 := by
  have hA : tryNewAPIBilling wSpecA =
      some ⟨5/2, 40, 45, 50, 5, "NewAPI", none⟩ := by
    norm_num [tryNewAPIBilling, wSpecA]
  have hguard : ¬ ((UniversalProvider.make "k" "https://api.example.com").apiKey = "" ∨
      (UniversalProvider.make "k" "https://api.example.com").endpoint = "") := by
    decide
  have hf : (UniversalProvider.make "k" "https://api.example.com").fetchUsage wSpecA =
      ⟨5/2, 40, 45, 50, 5, "NewAPI", none⟩ := by
    simp [UniversalProvider.fetchUsage, hguard, firstGood_cons, probeGood_some, hA]
  exact fetchUsage_remaining_sub_or_zero _ _ (by rw [hf])

end Lookcc
